import Mathlib

/-
Verification of the persistence core of the Impathy tutoring bot:
record codecs (src/utils/models.py), the tutor registry
(src/database/tutors_db.py), the sheets-backed table store
(src/database/sheets_manager.py) and the delete-student confirmation
flow (src/handlers/students.py).

Python values are embedded as follows: `str` becomes `String`,
`Optional[str]` becomes `Option String`, lists become `List`, a function
that can raise becomes one returning `Except`, and mutation of the
backing file or remote spreadsheet becomes explicit state passing.
Calls to `datetime.now()` are modelled by an explicit `now : String`
argument.
-/

namespace Impathy

/-! Section: Record models (src/utils/models.py) -/

/-- Embeds the `Student` dataclass: `name` is required, the four
descriptive fields are `Optional[str]` and `sheet_row` is
`Optional[int]`, all defaulting to `None`. -/
structure Student where
  name : String
  telegram_id : Option String := none
  email : Option String := none
  phone : Option String := none
  notes : Option String := none
  sheet_row : Option Nat := none
deriving Repr, DecidableEq

/-- Embeds the `Lesson` dataclass. -/
structure Lesson where
  student_name : String
  date : String
  time : Option String := none
  duration : Option String := none
  topic : Option String := none
  notes : Option String := none
  sheet_row : Option Nat := none
deriving Repr, DecidableEq

/-- Embeds the `Payment` dataclass. -/
structure Payment where
  student_name : String
  amount : String
  date : String
  method : Option String := none
  notes : Option String := none
  sheet_row : Option Nat := none
deriving Repr, DecidableEq

/-- Embeds the Python idiom `x or ""` applied to an `Optional[str]`
field: `None` becomes `""`; a present string is returned unchanged
(`"" or ""` is `""` in Python, matching `getD`). -/
def orBlank (x : Option String) : String :=
  x.getD ""

/-- Embeds `row[i] if len(row) > i and row[i] else None`: the cell is
absent when the row is too short or the cell is the empty string. -/
def optCell (row : List String) (i : Nat) : Option String :=
  match row.get? i with
  | none => none
  | some v => if v = "" then none else some v

/-- Embeds `row[i] if len(row) > i else ""` for required fields. -/
def reqCell (row : List String) (i : Nat) : String :=
  (row.get? i).getD ""

/-- Embeds `Student.to_row`. -/
def Student.to_row (s : Student) : List String :=
  [s.name, orBlank s.telegram_id, orBlank s.email, orBlank s.phone, orBlank s.notes]

/-- Embeds `Student.from_row(row, sheet_row=0)`. -/
def Student.from_row (row : List String) (sheet_row : Nat := 0) : Student :=
  { name := reqCell row 0
    telegram_id := optCell row 1
    email := optCell row 2
    phone := optCell row 3
    notes := optCell row 4
    sheet_row := some sheet_row }

/-- Embeds `Lesson.to_row`. -/
def Lesson.to_row (l : Lesson) : List String :=
  [l.student_name, l.date, orBlank l.time, orBlank l.duration, orBlank l.topic,
    orBlank l.notes]

/-- Embeds `Lesson.from_row(row, sheet_row=0)`. -/
def Lesson.from_row (row : List String) (sheet_row : Nat := 0) : Lesson :=
  { student_name := reqCell row 0
    date := reqCell row 1
    time := optCell row 2
    duration := optCell row 3
    topic := optCell row 4
    notes := optCell row 5
    sheet_row := some sheet_row }

/-- Embeds `Payment.to_row`. -/
def Payment.to_row (p : Payment) : List String :=
  [p.student_name, p.amount, p.date, orBlank p.method, orBlank p.notes]

/-- Embeds `Payment.from_row(row, sheet_row=0)`. -/
def Payment.from_row (row : List String) (sheet_row : Nat := 0) : Payment :=
  { student_name := reqCell row 0
    amount := reqCell row 1
    date := reqCell row 2
    method := optCell row 3
    notes := optCell row 4
    sheet_row := some sheet_row }

/-! Section: Tutor registry (src/database/tutors_db.py) -/

/-- Embeds the `TutorConfig` dataclass, as serialized to the registry
file (all five fields are strings; `TutorConfig.from_dict` on a dict
written by `to_dict` restores exactly these fields). -/
structure TutorConfig where
  telegram_id : String
  name : String
  sheets_id : String
  created_at : String
  updated_at : String
deriving Repr, DecidableEq

/-- Exceptions raised by `TutorsDB` operations
(src/database/exceptions.py). -/
inductive DbError where
  | tutorNotFound
  | tutorAlreadyExists
  | configurationError
deriving Repr, DecidableEq

/-- State of the backing `tutors_config.json` file as seen by
`_read_db`: either its content is not valid JSON (`json.load` raises
`JSONDecodeError`) or it parses to a document whose `tutors` list holds
the given records (a missing `tutors` key is normalized to `[]` by
`_read_db`, so `wellFormed` carries the normalized list). -/
inductive DbFile where
  | corrupt
  | wellFormed (tutors : List TutorConfig)
deriving Repr, DecidableEq

/-- Embeds `TutorsDB._read_db`: invalid JSON raises
`ConfigurationError`, otherwise the `tutors` list is returned. -/
def read_db (file : DbFile) : Except DbError (List TutorConfig) :=
  match file with
  | .corrupt => .error .configurationError
  | .wellFormed tutors => .ok tutors

/-- Embeds `TutorsDB.register_tutor`. Returns the raised error or the
new `TutorConfig`, paired with the resulting file state (the file is
written only on the success path, after the duplicate scan). -/
def register_tutor (file : DbFile) (telegram_id name sheets_id now : String) :
    Except DbError TutorConfig × DbFile :=
  match read_db file with
  | .error e => (.error e, file)
  | .ok tutors =>
    if tutors.any (fun t => t.telegram_id == telegram_id) then
      (.error .tutorAlreadyExists, file)
    else
      let tutor_config : TutorConfig :=
        { telegram_id := telegram_id, name := name, sheets_id := sheets_id
          created_at := now, updated_at := now }
      (.ok tutor_config, .wellFormed (tutors ++ [tutor_config]))

/-- Embeds `TutorsDB.get_tutor`: first entry whose `telegram_id`
matches, else `TutorNotFoundError`. Read-only. -/
def get_tutor (file : DbFile) (telegram_id : String) : Except DbError TutorConfig :=
  match read_db file with
  | .error e => .error e
  | .ok tutors =>
    match tutors.find? (fun t => t.telegram_id == telegram_id) with
    | some t => .ok t
    | none => .error .tutorNotFound

/-- Embeds the inner loop of `TutorsDB.update_tutor` applying `kwargs`
to one entry: only the keys `"name"` and `"sheets_id"` are written,
every other key is ignored. -/
def applyKwarg (t : TutorConfig) (kv : String × String) : TutorConfig :=
  if kv.1 = "name" then { t with name := kv.2 }
  else if kv.1 = "sheets_id" then { t with sheets_id := kv.2 }
  else t

/-- Embeds the whole `for key, value in kwargs.items()` loop of
`TutorsDB.update_tutor`. -/
def applyKwargs (t : TutorConfig) (kwargs : List (String × String)) : TutorConfig :=
  kwargs.foldl applyKwarg t

/-- Embeds the `for tutor in ...: if match: mutate; break` loop of
`TutorsDB.update_tutor`: the first matching entry is merged in place,
entries before and after it are untouched; `none` when no entry
matches. Returns the new list and the merged record. -/
def update_tutors (telegram_id : String) (kwargs : List (String × String))
    (now : String) : List TutorConfig → Option (List TutorConfig × TutorConfig)
  | [] => none
  | t :: rest =>
    if t.telegram_id == telegram_id then
      let merged := { applyKwargs t kwargs with updated_at := now }
      some (merged :: rest, merged)
    else
      match update_tutors telegram_id kwargs now rest with
      | some (rest2, merged) => some (t :: rest2, merged)
      | none => none

/-- Embeds `TutorsDB.update_tutor`: merge recognized fields into the
first match, stamp `updated_at`, persist and return the merged record;
`TutorNotFoundError` (with no write) when absent. -/
def update_tutor (file : DbFile) (telegram_id : String)
    (kwargs : List (String × String)) (now : String) :
    Except DbError TutorConfig × DbFile :=
  match read_db file with
  | .error e => (.error e, file)
  | .ok tutors =>
    match update_tutors telegram_id kwargs now tutors with
    | some (tutors2, merged) => (.ok merged, .wellFormed tutors2)
    | none => (.error .tutorNotFound, file)

/-- Embeds `TutorsDB.delete_tutor`: filter out entries with the given
id; if nothing was removed raise `TutorNotFoundError` before any write,
otherwise persist the filtered list. -/
def delete_tutor (file : DbFile) (telegram_id : String) :
    Except DbError Unit × DbFile :=
  match read_db file with
  | .error e => (.error e, file)
  | .ok tutors =>
    let remaining := tutors.filter (fun t => t.telegram_id != telegram_id)
    if remaining.length == tutors.length then
      (.error .tutorNotFound, file)
    else
      (.ok (), .wellFormed remaining)

/-- Embeds `TutorsDB.tutor_exists`: wraps `get_tutor`, converting only
`TutorNotFoundError` to `False`; every other exception (in particular
`ConfigurationError` from `_read_db`) propagates. -/
def tutor_exists (file : DbFile) (telegram_id : String) : Except DbError Bool :=
  match get_tutor file telegram_id with
  | .ok _ => .ok true
  | .error .tutorNotFound => .ok false
  | .error e => .error e

/-! Section: Sheets manager (src/database/sheets_manager.py)

The gspread backend is modelled as data: a worksheet is its title plus
the grid returned by `get_all_values` (a list of rows of strings), a
spreadsheet is its list of worksheets (titles are unique per
spreadsheet in Google Sheets, so addressing a worksheet by title models
mutating the worksheet object), and the authorized client is a partial
map from sheet id to spreadsheet (`open_by_key` raises when the id does
not resolve). -/

/-- A gspread worksheet: its title and the rows `get_all_values`
returns. -/
structure Worksheet where
  title : String
  rows : List (List String)
deriving Repr, DecidableEq

/-- A gspread spreadsheet: its worksheets. -/
structure Spreadsheet where
  worksheets : List Worksheet
deriving Repr, DecidableEq

/-- The gspread client: resolves a sheet id to a spreadsheet, or fails. -/
def Client : Type := String → Option Spreadsheet

/-- Exceptions raised by `SheetsManager` operations
(src/database/exceptions.py). -/
inductive SheetsError where
  | sheetNotFound
  | worksheetNotFound
  | malformedData (row : Nat)
deriving Repr, DecidableEq

/-- Embeds `SheetsManager.open_spreadsheet`: `SheetNotFoundError` when
the id cannot be opened. -/
def open_spreadsheet (client : Client) (sheet_id : String) :
    Except SheetsError Spreadsheet :=
  match client sheet_id with
  | some ss => .ok ss
  | none => .error .sheetNotFound

/-- Embeds the module-level `WORKSHEET_HEADERS` dict. -/
def WORKSHEET_HEADERS : List (String × List String) :=
  [("Ученики", ["Имя", "Telegram ID", "Email", "Телефон", "Заметки"]),
   ("Уроки", ["Студент", "Дата", "Время", "Продолжительность", "Тема", "Заметки"]),
   ("Платежи", ["Студент", "Сумма", "Дата", "Метод оплаты", "Заметки"]),
   ("История", ["Дата", "Событие", "Деталь"]),
   ("Настройки", ["Ключ", "Значение"])]

/-- Embeds `WORKSHEET_HEADERS.get(worksheet_name, [])`. -/
def headersFor (worksheet_name : String) : List String :=
  ((WORKSHEET_HEADERS.find? (fun kv => kv.1 == worksheet_name)).map (fun kv => kv.2)).getD []

/-- Embeds `SheetsManager.ensure_worksheet_exists`: return the existing
worksheet unchanged, or create one (empty grid; `add_worksheet` makes a
blank 1000x26 grid whose `get_all_values` is `[]`) and append the
declared header row when one is declared. Returns the worksheet
together with the resulting spreadsheet state. -/
def ensure_worksheet_exists (spreadsheet : Spreadsheet) (worksheet_name : String) :
    Worksheet × Spreadsheet :=
  match spreadsheet.worksheets.find? (fun w => w.title == worksheet_name) with
  | some ws => (ws, spreadsheet)
  | none =>
    let headers := headersFor worksheet_name
    let ws : Worksheet :=
      { title := worksheet_name, rows := if headers = [] then [] else [headers] }
    (ws, { worksheets := spreadsheet.worksheets ++ [ws] })

/-- Embeds `worksheet.append_row(row)` on the worksheet with the given
title inside a spreadsheet state. -/
def append_row_in (spreadsheet : Spreadsheet) (worksheet_name : String)
    (row : List String) : Spreadsheet :=
  { worksheets :=
      spreadsheet.worksheets.map
        (fun w =>
          if w.title == worksheet_name then { w with rows := w.rows ++ [row] }
          else w) }

/-- Embeds the row loop of `SheetsManager.get_all_students`
(`for idx, row in enumerate(rows[1:], start=2)`): `idx` is the running
sheet row number, rows that are empty or whose first cell is empty are
skipped (`if not row or not row[0]: continue`), every other row is
decoded with `Student.from_row(row, sheet_row=idx)`; a decoding failure
would raise `MalformedDataError` with `idx` (the `except` arm, which is
unreachable for rows of strings since `from_row` is total on them). -/
def studentsLoop : Nat → List (List String) → Except SheetsError (List Student)
  | _, [] => .ok []
  | idx, row :: rest =>
    if row.headD "" = "" then
      studentsLoop (idx + 1) rest
    else
      match studentsLoop (idx + 1) rest with
      | .ok students => .ok (Student.from_row row idx :: students)
      | .error e => .error e

/-- Embeds `SheetsManager.get_all_students`: open the spreadsheet,
ensure the Ученики worksheet, then decode its data rows. (A worksheet
created by `ensure_worksheet_exists` only changes the remote store; the
returned value is the student list, as in the source.) -/
def get_all_students (client : Client) (sheet_id : String) :
    Except SheetsError (List Student) :=
  match open_spreadsheet client sheet_id with
  | .error e => .error e
  | .ok spreadsheet =>
    studentsLoop 2 ((ensure_worksheet_exists spreadsheet "Ученики").1.rows.drop 1)

/-- Embeds `SheetsManager.log_event`: open the spreadsheet, ensure the
История worksheet, append `[timestamp, event, detail]`. There is no
exception handling in the source: any error from opening or ensuring
propagates to the caller. Returns the resulting spreadsheet state. -/
def log_event (client : Client) (sheet_id event detail now : String) :
    Except SheetsError Spreadsheet :=
  match open_spreadsheet client sheet_id with
  | .error e => .error e
  | .ok spreadsheet =>
    let pair := ensure_worksheet_exists spreadsheet "История"
    .ok (append_row_in pair.2 "История" [now, event, detail])

/-! Section: Delete-student confirmation flow (src/handlers/students.py)

In state `DEL_AWAITING_CONFIRM` the `ConversationHandler` dispatches,
in order: `CommandHandler("confirm")` and `MessageHandler(filters.TEXT)`
both to `delete_student_confirm`, and `CommandHandler("cancel")` to
`delete_student_cancel` (which ends the conversation with no deletion —
observably the same as `delete_student_confirm`'s own `/cancel` branch).
So the state's behaviour on any text input is `delete_student_confirm`. -/

/-- Conversation states of the delete-student flow
(`DEL_AWAITING_PARENT`, `DEL_AWAITING_STUDENT`, `DEL_AWAITING_CONFIRM`,
`ConversationHandler.END`). -/
inductive DelState where
  | awaitingParent
  | awaitingStudent
  | awaitingConfirm
  | ended
deriving Repr, DecidableEq

/-- Observable outcome of one step of `delete_student_confirm`: the
returned conversation state, whether `delete_student_record` (the
table write) was invoked, and whether the confirmation prompt was
re-sent. -/
structure ConfirmResult where
  next : DelState
  deleteInvoked : Bool
  reprompted : Bool
deriving Repr, DecidableEq

/-- Embeds the whitespace predicate of Python `str.strip()` with no
argument (CPython's `Py_UNICODE_ISSPACE`): the ASCII controls
`\t \n \x0b \x0c \r`, the file/group/record/unit separators
`\x1c`-`\x1f`, the space, NEL (U+0085), NBSP (U+00A0), and the Unicode
space/line/paragraph separators U+1680, U+2000-U+200A, U+2028, U+2029,
U+202F, U+205F, U+3000. -/
def pyIsSpace (c : Char) : Bool :=
  (0x09 ≤ c.val && c.val ≤ 0x0d) || c.val == 0x20 ||
  (0x1c ≤ c.val && c.val ≤ 0x1f) || c.val == 0x85 || c.val == 0xa0 ||
  c.val == 0x1680 || (0x2000 ≤ c.val && c.val ≤ 0x200a) ||
  c.val == 0x2028 || c.val == 0x2029 || c.val == 0x202f ||
  c.val == 0x205f || c.val == 0x3000

/-- Embeds Python `str.strip` on its leading edge. -/
def dropWsFront : List Char → List Char
  | [] => []
  | c :: rest => if pyIsSpace c then dropWsFront rest else c :: rest

/-- Embeds Python `str.strip`: whitespace removed from both ends. -/
def pyStrip (s : String) : String :=
  String.mk ((dropWsFront (dropWsFront s.data).reverse).reverse)

/-- Embeds Python `str.lower` (the inputs concerned are the bot's ASCII
command words, where `Char.toLower` agrees with Python). -/
def pyLower (s : String) : String :=
  String.mk (s.data.map Char.toLower)

/-- Embeds Python `str.startswith`. -/
def pyStartsWith (s prefx : String) : Bool :=
  prefx.data.isPrefixOf s.data

/-- Embeds `update.message.text.strip().lower()` as computed at the top
of `delete_student_confirm`. -/
def normalizeInput (input : String) : String :=
  pyLower (pyStrip input)

/-- Embeds `StudentHandlers.delete_student_confirm`:
`user_input = update.message.text.strip().lower()`; an input starting
with `"/confirm"` invokes the delete and ends; one starting with
`"/cancel"` ends with no delete; anything else re-sends the
confirmation prompt and stays in `DEL_AWAITING_CONFIRM`. -/
def delete_student_confirm (input : String) : ConfirmResult :=
  let user_input := normalizeInput input
  if pyStartsWith user_input "/confirm" then
    { next := .ended, deleteInvoked := true, reprompted := false }
  else if pyStartsWith user_input "/cancel" then
    { next := .ended, deleteInvoked := false, reprompted := false }
  else
    { next := .awaitingConfirm, deleteInvoked := false, reprompted := true }

/-- Runs the confirming state on a list of successive inputs and
reports whether any step invoked the delete write; once the
conversation leaves `DEL_AWAITING_CONFIRM` (it can only end), later
inputs are outside the conversation and cause no write. -/
def confirmRunInvokes : List String → Bool
  | [] => false
  | input :: rest =>
    let r := delete_student_confirm input
    r.deleteInvoked || (if r.next = .awaitingConfirm then confirmRunInvokes rest else false)

/-! Section: concrete fixtures used by witness theorems -/

/-- A registered tutor, as in the end-to-end scenario of the spec. -/
def annaTutor : TutorConfig :=
  { telegram_id := "1001", name := "Anna Ivanova", sheets_id := "ws-42"
    created_at := "t0", updated_at := "t0" }

/-- A second registered tutor. -/
def borisTutor : TutorConfig :=
  { telegram_id := "1002", name := "Boris Petrov", sheets_id := "ws-43"
    created_at := "t0", updated_at := "t0" }

/-- An Ученики worksheet with a header row, one data row and one blank
row. -/
def sampleStudentsWs : Worksheet :=
  { title := "Ученики"
    rows := [["Имя", "Telegram ID", "Email", "Телефон", "Заметки"],
             ["Олег", "", "o@x.com", "", ""],
             ["", "", "", "", ""]] }

/-- A workspace holding only the Ученики table above. -/
def sampleSpreadsheet : Spreadsheet :=
  { worksheets := [sampleStudentsWs] }

/-- A client that resolves only the id `"ws-42"`. -/
def sampleClient : Client :=
  fun sheet_id => if sheet_id = "ws-42" then some sampleSpreadsheet else none

/-- A client that resolves no id at all. -/
def emptyClient : Client :=
  fun _ => none

/-! Section: helper lemmas -/

theorem find?_append_of_none {α : Type} {p : α → Bool} {l1 : List α}
    (h : l1.find? p = none) (l2 : List α) : (l1 ++ l2).find? p = l2.find? p := by
  induction l1 with
  | nil => rfl
  | cons a l ih =>
    rw [List.find?_cons] at h
    rcases hp : p a with _ | _
    · rw [List.cons_append, List.find?_cons, hp]
      exact ih (by simpa [hp] using h)
    · simp [hp] at h

theorem normOpt_eq {t : Option String} (h : t ≠ some "") :
    (if orBlank t = "" then none else some (orBlank t)) = t := by
  cases t with
  | none => simp [orBlank]
  | some v =>
    have hv : v ≠ "" := fun hv => h (by rw [hv])
    simp [orBlank, hv]

theorem applyKwarg_telegram_id (t : TutorConfig) (kv : String × String) :
    (applyKwarg t kv).telegram_id = t.telegram_id := by
  unfold applyKwarg; split <;> [rfl; split <;> rfl]

theorem applyKwarg_created_at (t : TutorConfig) (kv : String × String) :
    (applyKwarg t kv).created_at = t.created_at := by
  unfold applyKwarg; split <;> [rfl; split <;> rfl]

theorem applyKwargs_telegram_id (kwargs : List (String × String)) :
    ∀ t : TutorConfig, (applyKwargs t kwargs).telegram_id = t.telegram_id := by
  induction kwargs with
  | nil => intro t; rfl
  | cons kv rest ih =>
    intro t
    rw [applyKwargs, List.foldl_cons]
    exact (ih (applyKwarg t kv)).trans (applyKwarg_telegram_id t kv)

theorem applyKwargs_created_at (kwargs : List (String × String)) :
    ∀ t : TutorConfig, (applyKwargs t kwargs).created_at = t.created_at := by
  induction kwargs with
  | nil => intro t; rfl
  | cons kv rest ih =>
    intro t
    rw [applyKwargs, List.foldl_cons]
    exact (ih (applyKwarg t kv)).trans (applyKwarg_created_at t kv)

theorem applyKwargs_of_unrecognized (kwargs : List (String × String))
    (h : ∀ kv ∈ kwargs, kv.1 ≠ "name" ∧ kv.1 ≠ "sheets_id") :
    ∀ t : TutorConfig, applyKwargs t kwargs = t := by
  induction kwargs with
  | nil => intro t; rfl
  | cons kv rest ih =>
    intro t
    rw [applyKwargs, List.foldl_cons]
    have hkv := h kv (List.mem_cons_self kv rest)
    have hstep : applyKwarg t kv = t := by
      unfold applyKwarg
      rw [if_neg hkv.1, if_neg hkv.2]
    rw [hstep]
    exact ih (fun kv hm => h kv (List.mem_cons_of_mem _ hm)) t

theorem update_tutors_eq_none (id : String) (kwargs : List (String × String))
    (now : String) (l : List TutorConfig) (h : ∀ u ∈ l, u.telegram_id ≠ id) :
    update_tutors id kwargs now l = none := by
  induction l with
  | nil => rfl
  | cons t rest ih =>
    have ht : (t.telegram_id == id) = false := by
      simpa using h t (List.mem_cons_self t rest)
    rw [update_tutors, if_neg (by simp [ht]),
      ih (fun u hm => h u (List.mem_cons_of_mem _ hm))]

theorem update_tutors_found (id : String) (kwargs : List (String × String))
    (now : String) (pre : List TutorConfig) (t : TutorConfig) (post : List TutorConfig)
    (hpre : ∀ u ∈ pre, u.telegram_id ≠ id) (ht : t.telegram_id = id) :
    update_tutors id kwargs now (pre ++ t :: post) =
      some (pre ++ { applyKwargs t kwargs with updated_at := now } :: post,
        { applyKwargs t kwargs with updated_at := now }) := by
  induction pre with
  | nil =>
    rw [List.nil_append, update_tutors, if_pos (by simp [ht])]
    rfl
  | cons u rest ih =>
    have hu : (u.telegram_id == id) = false := by
      simpa using hpre u (List.mem_cons_self u rest)
    rw [List.cons_append, update_tutors, if_neg (by simp [hu]),
      ih (fun v hm => hpre v (List.mem_cons_of_mem _ hm))]
    rfl

/-! Section: claim theorems -/

/-- C1, counterexample: the round-trip law fails as stated. Decoding the
encoding of a `Student` whose optional fields are all absent does not
return the original record: `from_row` stamps `sheet_row` with its
position argument (default `0`), while the original has `sheet_row`
absent. -/
theorem c1_counterexample :
    Student.from_row (Student.mk "Anna" none none none none none).to_row ≠
      Student.mk "Anna" none none none none none := by
  decide

/-- C1, amended: for every record kind, decoding the encoded row with
decoder position `k` yields the original record with its `sheet_row`
replaced by `k`, provided no optional field is present-but-empty
(`some ""`, which the codec normalizes to absent). All data fields,
including all-optional-fields-absent combinations, round-trip exactly;
only `sheet_row` is overwritten by the decoder. -/
theorem c1_roundtrip_amended :
    (∀ (s : Student) (k : Nat), s.telegram_id ≠ some "" → s.email ≠ some "" →
      s.phone ≠ some "" → s.notes ≠ some "" →
      Student.from_row s.to_row k = { s with sheet_row := some k }) ∧
    (∀ (l : Lesson) (k : Nat), l.time ≠ some "" → l.duration ≠ some "" →
      l.topic ≠ some "" → l.notes ≠ some "" →
      Lesson.from_row l.to_row k = { l with sheet_row := some k }) ∧
    (∀ (p : Payment) (k : Nat), p.method ≠ some "" → p.notes ≠ some "" →
      Payment.from_row p.to_row k = { p with sheet_row := some k }) := by
  refine ⟨?_, ?_, ?_⟩
  · intro s k h1 h2 h3 h4
    obtain ⟨n, t, e, p, no, sr⟩ := s
    simp only [Student.to_row, Student.from_row, optCell, reqCell, List.get?]
    simp only [Option.getD_some]
    simp [normOpt_eq h1, normOpt_eq h2, normOpt_eq h3, normOpt_eq h4]
  · intro l k h1 h2 h3 h4
    obtain ⟨n, d, t, du, tp, no, sr⟩ := l
    simp only [Lesson.to_row, Lesson.from_row, optCell, reqCell, List.get?]
    simp only [Option.getD_some]
    simp [normOpt_eq h1, normOpt_eq h2, normOpt_eq h3, normOpt_eq h4]
  · intro p k h1 h2
    obtain ⟨n, a, d, m, no, sr⟩ := p
    simp only [Payment.to_row, Payment.from_row, optCell, reqCell, List.get?]
    simp only [Option.getD_some]
    simp [normOpt_eq h1, normOpt_eq h2]

theorem c1_roundtrip_amended_witness :
    Student.from_row (Student.mk "Oleg" none (some "o@x.com") none none none).to_row 2 =
      Student.mk "Oleg" none (some "o@x.com") none none (some 2) ∧
    Lesson.from_row (Lesson.mk "Oleg" "2024-01-15" none none none none none).to_row 3 =
      Lesson.mk "Oleg" "2024-01-15" none none none none (some 3) ∧
    Payment.from_row (Payment.mk "Oleg" "100" "2024-01-15" (some "Cash") none none).to_row 4 =
      Payment.mk "Oleg" "100" "2024-01-15" (some "Cash") none (some 4) :=
  ⟨c1_roundtrip_amended.1 _ 2 (by decide) (by decide) (by decide) (by decide),
   c1_roundtrip_amended.2.1 _ 3 (by decide) (by decide) (by decide) (by decide),
   c1_roundtrip_amended.2.2 _ 4 (by decide) (by decide)⟩

/-- C2: on any well-formed registry state with no entry for `id`,
`register_tutor(id, name, sheets_id)` succeeds, persists exactly the
new entry appended, and a subsequent `get_tutor(id)` returns a
`TutorConfig` whose `name` and `sheets_id` are the registered values
and whose `created_at` equals its `updated_at`. -/
theorem c2_register_then_get (tutors : List TutorConfig) (id name sid now : String)
    (h : ∀ t ∈ tutors, t.telegram_id ≠ id) :
    ∃ tc : TutorConfig,
      register_tutor (.wellFormed tutors) id name sid now =
        (.ok tc, .wellFormed (tutors ++ [tc])) ∧
      get_tutor (.wellFormed (tutors ++ [tc])) id = .ok tc ∧
      tc.name = name ∧ tc.sheets_id = sid ∧ tc.created_at = tc.updated_at := by
  have hany : tutors.any (fun t => t.telegram_id == id) = false :=
    List.any_eq_false.mpr (fun t ht => by simpa using h t ht)
  have hfind : tutors.find? (fun t => t.telegram_id == id) = none :=
    List.find?_eq_none.mpr (fun t ht => by simpa using h t ht)
  refine ⟨{ telegram_id := id, name := name, sheets_id := sid
            created_at := now, updated_at := now }, ?_, ?_, rfl, rfl, rfl⟩
  · simp [register_tutor, read_db, hany]
  · simp [get_tutor, read_db, find?_append_of_none hfind, List.find?]

theorem c2_register_then_get_witness :
    ∃ tc : TutorConfig,
      register_tutor (.wellFormed []) "1001" "Anna Ivanova" "ws-42" "t0" =
        (.ok tc, .wellFormed ([] ++ [tc])) ∧
      get_tutor (.wellFormed ([] ++ [tc])) "1001" = .ok tc ∧
      tc.name = "Anna Ivanova" ∧ tc.sheets_id = "ws-42" ∧ tc.created_at = tc.updated_at :=
  c2_register_then_get [] "1001" "Anna Ivanova" "ws-42" "t0" (by simp)

/-- C3: on any well-formed registry state already holding an entry with
the given id, `register_tutor` fails with `TutorAlreadyExistsError` and
the backing file is unchanged (the error is raised before any write). -/
theorem c3_register_existing (tutors : List TutorConfig) (t0 : TutorConfig)
    (id name sid now : String) (hmem : t0 ∈ tutors) (hid : t0.telegram_id = id) :
    register_tutor (.wellFormed tutors) id name sid now =
      (.error .tutorAlreadyExists, .wellFormed tutors) := by
  have hany : tutors.any (fun t => t.telegram_id == id) = true :=
    List.any_eq_true.mpr ⟨t0, hmem, by simp [hid]⟩
  simp [register_tutor, read_db, hany]

theorem c3_register_existing_witness :
    register_tutor (.wellFormed [annaTutor, borisTutor]) "1001" "Another Name" "ws-99" "t5" =
      (.error .tutorAlreadyExists, .wellFormed [annaTutor, borisTutor]) :=
  c3_register_existing [annaTutor, borisTutor] annaTutor "1001" "Another Name" "ws-99" "t5"
    (by simp) rfl

/-- C6, counterexample: `tutor_exists` does not always return a boolean.
On a registry file whose content is invalid JSON it raises
`ConfigurationError` (only `TutorNotFoundError` is caught by the
`try/except` in `tutor_exists`). -/
theorem c6_counterexample :
    tutor_exists DbFile.corrupt "1001" = .error .configurationError ∧
    ∀ b : Bool, tutor_exists DbFile.corrupt "1001" ≠ .ok b := by
  refine ⟨rfl, ?_⟩
  intro b h
  cases h

/-- C6, amended: on every well-formed registry file `tutor_exists`
returns a boolean and never raises — `true` exactly when an entry with
the id is present; on a file with invalid JSON it raises
`ConfigurationError` instead of returning a boolean. -/
theorem c6_exists_amended (tutors : List TutorConfig) (id : String) :
    tutor_exists (.wellFormed tutors) id =
      .ok (tutors.any (fun t => t.telegram_id == id)) := by
  unfold tutor_exists get_tutor read_db
  rcases hfind : tutors.find? (fun t => t.telegram_id == id) with _ | t
  · have hany : tutors.any (fun t => t.telegram_id == id) = false :=
      List.any_eq_false.mpr (fun x hx => by simpa using List.find?_eq_none.mp hfind x hx)
    simp [hfind, hany]
  · have hany : tutors.any (fun t => t.telegram_id == id) = true := by
      refine List.any_eq_true.mpr ⟨t, List.mem_of_find?_eq_some hfind, ?_⟩
      exact List.find?_some (p := fun u : TutorConfig => u.telegram_id == id) hfind
    simp [hfind, hany]

/-- C7: deleting an absent id fails with `TutorNotFoundError` and the
registry file is unchanged (the error is raised before any write);
deleting a present id succeeds and a subsequent `get_tutor` of that id
fails with `TutorNotFoundError`. -/
theorem c7_delete_spec :
    (∀ (tutors : List TutorConfig) (id : String), (∀ t ∈ tutors, t.telegram_id ≠ id) →
      delete_tutor (.wellFormed tutors) id = (.error .tutorNotFound, .wellFormed tutors)) ∧
    (∀ (tutors : List TutorConfig) (t0 : TutorConfig) (id : String),
      t0 ∈ tutors → t0.telegram_id = id →
      ∃ remaining : List TutorConfig,
        delete_tutor (.wellFormed tutors) id = (.ok (), .wellFormed remaining) ∧
        get_tutor (.wellFormed remaining) id = .error .tutorNotFound) := by
  constructor
  · intro tutors id h
    have hfilter : tutors.filter (fun t => t.telegram_id != id) = tutors :=
      List.filter_eq_self.mpr (fun t ht => by simpa using h t ht)
    simp [delete_tutor, read_db, hfilter]
  · intro tutors t0 id hmem hid
    refine ⟨tutors.filter (fun t => t.telegram_id != id), ?_, ?_⟩
    · have hlt : (tutors.filter (fun t => t.telegram_id != id)).length < tutors.length := by
        refine List.length_filter_lt_length_iff_exists.mpr ⟨t0, hmem, ?_⟩
        simp [hid]
      have hne : ((tutors.filter (fun t => t.telegram_id != id)).length
          == tutors.length) = false := by
        simpa using Nat.ne_of_lt hlt
      simp [delete_tutor, read_db, hne]
    · have hfind : (tutors.filter (fun t => t.telegram_id != id)).find?
          (fun t => t.telegram_id == id) = none := by
        refine List.find?_eq_none.mpr (fun x hx => ?_)
        have := (List.mem_filter.mp hx).2
        simpa using this
      simp [get_tutor, read_db, hfind]

theorem c7_delete_spec_witness :
    delete_tutor (.wellFormed [annaTutor]) "9999" =
      (.error .tutorNotFound, .wellFormed [annaTutor]) ∧
    ∃ remaining : List TutorConfig,
      delete_tutor (.wellFormed [annaTutor, borisTutor]) "1001" =
        (.ok (), .wellFormed remaining) ∧
      get_tutor (.wellFormed remaining) "1001" = .error .tutorNotFound :=
  ⟨c7_delete_spec.1 [annaTutor] "9999" (by decide),
   c7_delete_spec.2 [annaTutor, borisTutor] annaTutor "1001" (by simp) rfl⟩

/-- C8: when an entry with the id exists, `update_tutor(id, kwargs)`
replaces the first matching entry by a merged record and leaves every
other entry untouched; the merged record keeps the entry's
`telegram_id` and `created_at`, gets `updated_at = now`, and is the
returned value; caller-supplied keys outside name and sheets_id are
ignored (if no key is recognized, only `updated_at` changes); when the
id is absent it fails with `TutorNotFoundError` and the file is
unchanged. -/
theorem c8_update_spec :
    (∀ (tutors : List TutorConfig) (id : String) (kwargs : List (String × String))
      (now : String), (∀ t ∈ tutors, t.telegram_id ≠ id) →
      update_tutor (.wellFormed tutors) id kwargs now =
        (.error .tutorNotFound, .wellFormed tutors)) ∧
    (∀ (pre post : List TutorConfig) (t : TutorConfig) (id : String)
      (kwargs : List (String × String)) (now : String),
      (∀ u ∈ pre, u.telegram_id ≠ id) → t.telegram_id = id →
      ∃ merged : TutorConfig,
        update_tutor (.wellFormed (pre ++ t :: post)) id kwargs now =
          (.ok merged, .wellFormed (pre ++ merged :: post)) ∧
        merged.telegram_id = t.telegram_id ∧
        merged.created_at = t.created_at ∧
        merged.updated_at = now ∧
        ((∀ kv ∈ kwargs, kv.1 ≠ "name" ∧ kv.1 ≠ "sheets_id") →
          merged = { t with updated_at := now })) := by
  constructor
  · intro tutors id kwargs now h
    simp [update_tutor, read_db, update_tutors_eq_none id kwargs now tutors h]
  · intro pre post t id kwargs now hpre ht
    refine ⟨{ applyKwargs t kwargs with updated_at := now }, ?_, ?_, ?_, rfl, ?_⟩
    · simp [update_tutor, read_db, update_tutors_found id kwargs now pre t post hpre ht]
    · exact applyKwargs_telegram_id kwargs t
    · exact applyKwargs_created_at kwargs t
    · intro hun
      rw [applyKwargs_of_unrecognized kwargs hun t]

theorem c8_update_spec_witness :
    update_tutor (.wellFormed [annaTutor]) "9999" [("name", "X")] "t5" =
      (.error .tutorNotFound, .wellFormed [annaTutor]) ∧
    ∃ merged : TutorConfig,
      update_tutor (.wellFormed ([borisTutor] ++ annaTutor :: [])) "1001"
          [("name", "Anna P"), ("telegram_id", "666")] "t5" =
        (.ok merged, .wellFormed ([borisTutor] ++ merged :: [])) ∧
      merged.telegram_id = annaTutor.telegram_id ∧
      merged.created_at = annaTutor.created_at ∧
      merged.updated_at = "t5" ∧
      ((∀ kv ∈ [("name", "Anna P"), ("telegram_id", "666")],
          kv.1 ≠ "name" ∧ kv.1 ≠ "sheets_id") →
        merged = { annaTutor with updated_at := "t5" }) :=
  ⟨c8_update_spec.1 [annaTutor] "9999" [("name", "X")] "t5" (by decide),
   c8_update_spec.2 [borisTutor] [] annaTutor "1001"
     [("name", "Anna P"), ("telegram_id", "666")] "t5" (by decide) rfl⟩

theorem ensure_mem (ss : Spreadsheet) (name : String) :
    (ensure_worksheet_exists ss name).1 ∈ (ensure_worksheet_exists ss name).2.worksheets ∧
    (ensure_worksheet_exists ss name).1.title = name := by
  rcases hfind : ss.worksheets.find? (fun w => w.title == name) with _ | ws
  · constructor
    · simp [ensure_worksheet_exists, hfind]
    · simp [ensure_worksheet_exists, hfind]
  · constructor
    · simpa [ensure_worksheet_exists, hfind] using List.mem_of_find?_eq_some hfind
    · have := List.find?_some (p := fun w : Worksheet => w.title == name) hfind
      simpa [ensure_worksheet_exists, hfind] using this

theorem append_row_in_mem {ss : Spreadsheet} {ws : Worksheet} {name : String}
    (hmem : ws ∈ ss.worksheets) (htitle : ws.title = name) (row : List String) :
    ∃ ws2 ∈ (append_row_in ss name row).worksheets,
      ws2.title = name ∧ ws2.rows = ws.rows ++ [row] := by
  refine ⟨{ ws with rows := ws.rows ++ [row] }, ?_, htitle, rfl⟩
  unfold append_row_in
  refine List.mem_map.mpr ⟨ws, hmem, ?_⟩
  simp [htitle]

/-- C9: `ensure_worksheet_exists` is idempotent — running it again on
its own output returns the same worksheet and leaves the spreadsheet
unchanged, and on an existing worksheet it returns that worksheet
without modifying anything; when the worksheet is absent it appends a
new one whose rows are exactly the declared header row for that name,
or no rows at all when no header schema is declared. -/
theorem c9_ensure_worksheet_spec :
    (∀ (ss : Spreadsheet) (name : String) (ws1 : Worksheet) (ss1 : Spreadsheet),
      ensure_worksheet_exists ss name = (ws1, ss1) →
      ensure_worksheet_exists ss1 name = (ws1, ss1)) ∧
    (∀ (ss : Spreadsheet) (name : String) (ws : Worksheet),
      ss.worksheets.find? (fun w => w.title == name) = some ws →
      ensure_worksheet_exists ss name = (ws, ss)) ∧
    (∀ (ss : Spreadsheet) (name : String),
      ss.worksheets.find? (fun w => w.title == name) = none →
      ∃ ws : Worksheet,
        ensure_worksheet_exists ss name = (ws, { worksheets := ss.worksheets ++ [ws] }) ∧
        ws.title = name ∧
        ws.rows = (if headersFor name = [] then [] else [headersFor name])) := by
  refine ⟨?_, ?_, ?_⟩
  · intro ss name ws1 ss1 h
    rcases hfind : ss.worksheets.find? (fun w => w.title == name) with _ | ws
    · rw [ensure_worksheet_exists, hfind] at h
      obtain ⟨rfl, rfl⟩ := Prod.mk.injEq .. ▸ h
      rw [ensure_worksheet_exists]
      rw [show ({ worksheets := ss.worksheets ++
          [{ title := name,
             rows := if headersFor name = [] then [] else [headersFor name] }] } :
          Spreadsheet).worksheets = ss.worksheets ++
          [{ title := name,
             rows := if headersFor name = [] then [] else [headersFor name] }] from rfl,
        find?_append_of_none hfind]
      simp [List.find?]
    · rw [ensure_worksheet_exists, hfind] at h
      obtain ⟨rfl, rfl⟩ := Prod.mk.injEq .. ▸ h
      rw [ensure_worksheet_exists, hfind]
  · intro ss name ws h
    rw [ensure_worksheet_exists, h]
  · intro ss name h
    exact ⟨_, by rw [ensure_worksheet_exists, h], rfl, rfl⟩

theorem c9_ensure_worksheet_spec_witness :
    ensure_worksheet_exists sampleSpreadsheet "Ученики" =
      (sampleStudentsWs, sampleSpreadsheet) ∧
    (∃ ws : Worksheet,
      ensure_worksheet_exists sampleSpreadsheet "История" =
        (ws, { worksheets := sampleSpreadsheet.worksheets ++ [ws] }) ∧
      ws.title = "История" ∧
      ws.rows = (if headersFor "История" = [] then [] else [headersFor "История"])) ∧
    ensure_worksheet_exists sampleSpreadsheet "Ученики" =
      (sampleStudentsWs, sampleSpreadsheet) :=
  ⟨c9_ensure_worksheet_spec.2.1 sampleSpreadsheet "Ученики" sampleStudentsWs (by decide),
   c9_ensure_worksheet_spec.2.2 sampleSpreadsheet "История" (by decide),
   c9_ensure_worksheet_spec.1 sampleSpreadsheet "Ученики" sampleStudentsWs sampleSpreadsheet
     (c9_ensure_worksheet_spec.2.1 sampleSpreadsheet "Ученики" sampleStudentsWs (by decide))⟩

/-- C5, counterexample: a backend failure inside `log_event` does
propagate to the caller. With a client that cannot resolve the sheet
id, `log_event` raises `SheetNotFoundError` instead of reporting and
swallowing it: the source has no `try/except` around the append. -/
theorem c5_counterexample :
    log_event emptyClient "sheet-123" "Student added" "Alice" "2024-01-15T10:00:00" =
      .error .sheetNotFound := rfl

/-- C5, amended: `log_event` appends `[timestamp, event, detail]` to
the История worksheet whenever the workspace opens, but a backend
error during the operation is NOT caught: it propagates to the caller
exactly like the other repository operations (the best-effort behaviour
claimed by the spec is absent from the code). -/
theorem c5_log_event_amended :
    (∀ (client : Client) (sid : String) (ss : Spreadsheet) (event detail now : String),
      client sid = some ss →
      ∃ ss2 : Spreadsheet, log_event client sid event detail now = .ok ss2 ∧
        ∃ ws ∈ ss2.worksheets, ws.title = "История" ∧
          ws.rows.getLast? = some [now, event, detail]) ∧
    (∀ (client : Client) (sid : String) (event detail now : String),
      client sid = none →
      log_event client sid event detail now = .error .sheetNotFound) := by
  constructor
  · intro client sid ss event detail now h
    refine ⟨append_row_in (ensure_worksheet_exists ss "История").2 "История"
      [now, event, detail], ?_, ?_⟩
    · rw [log_event, open_spreadsheet, h]
    · obtain ⟨hmem, htitle⟩ := ensure_mem ss "История"
      obtain ⟨ws2, h2mem, h2title, h2rows⟩ := append_row_in_mem hmem htitle [now, event, detail]
      exact ⟨ws2, h2mem, h2title, by rw [h2rows]; exact List.getLast?_concat _⟩
  · intro client sid event detail now h
    rw [log_event, open_spreadsheet, h]

theorem c5_log_event_amended_witness :
    (∃ ss2 : Spreadsheet,
      log_event sampleClient "ws-42" "Student added" "Alice" "t1" = .ok ss2 ∧
      ∃ ws ∈ ss2.worksheets, ws.title = "История" ∧
        ws.rows.getLast? = some ["t1", "Student added", "Alice"]) ∧
    log_event sampleClient "ws-404" "Student added" "Alice" "t1" =
      .error .sheetNotFound :=
  ⟨c5_log_event_amended.1 sampleClient "ws-42" sampleSpreadsheet "Student added" "Alice" "t1"
     (by decide),
   c5_log_event_amended.2 sampleClient "ws-404" "Student added" "Alice" "t1" (by decide)⟩

theorem get?_drop_one {α : Type} (rows : List α) (j : Nat) :
    (rows.drop 1).get? j = rows.get? (j + 1) := by
  cases rows with
  | nil => simp
  | cons r rest => rfl

theorem studentsLoop_ok : ∀ (rows : List (List String)) (k : Nat),
    ∃ l, studentsLoop k rows = .ok l := by
  intro rows
  induction rows with
  | nil => exact fun k => ⟨[], rfl⟩
  | cons row rest ih =>
    intro k
    obtain ⟨l, hl⟩ := ih (k + 1)
    by_cases hb : row.headD "" = ""
    · exact ⟨l, by rw [studentsLoop, if_pos hb]; exact hl⟩
    · exact ⟨Student.from_row row k :: l, by rw [studentsLoop, if_neg hb, hl]⟩

theorem studentsLoop_mem : ∀ (rows : List (List String)) (k : Nat) (l : List Student),
    studentsLoop k rows = .ok l → ∀ s ∈ l,
    ∃ j row, rows.get? j = some row ∧ row.headD "" ≠ "" ∧
      s = Student.from_row row (k + j) := by
  intro rows
  induction rows with
  | nil =>
    intro k l h s hs
    obtain rfl : ([] : List Student) = l := by simpa [studentsLoop] using h
    simp at hs
  | cons row rest ih =>
    intro k l h s hs
    by_cases hb : row.headD "" = ""
    · rw [studentsLoop, if_pos hb] at h
      obtain ⟨j, r, hget, hr, hs2⟩ := ih (k + 1) l h s hs
      exact ⟨j + 1, r, hget, hr, by rw [hs2]; congr 1; omega⟩
    · rw [studentsLoop, if_neg hb] at h
      cases hrec : studentsLoop (k + 1) rest with
      | error e =>
        rw [hrec] at h
        cases h
      | ok l2 =>
        rw [hrec] at h
        obtain rfl : Student.from_row row k :: l2 = l := by simpa using h
        rcases List.mem_cons.mp hs with hhead | htail
        · exact ⟨0, row, rfl, hb, by rw [hhead]; rfl⟩
        · obtain ⟨j, r, hget, hr, hs2⟩ := ih (k + 1) l2 hrec s htail
          exact ⟨j + 1, r, hget, hr, by rw [hs2]; congr 1; omega⟩

theorem studentsLoop_complete : ∀ (rows : List (List String)) (k : Nat) (l : List Student),
    studentsLoop k rows = .ok l → ∀ (j : Nat) (row : List String),
    rows.get? j = some row → row.headD "" ≠ "" →
    Student.from_row row (k + j) ∈ l := by
  intro rows
  induction rows with
  | nil =>
    intro k l _ j row hget
    simp at hget
  | cons row0 rest ih =>
    intro k l h j row hget hr
    by_cases hb : row0.headD "" = ""
    · rw [studentsLoop, if_pos hb] at h
      cases j with
      | zero =>
        obtain rfl : row0 = row := by simpa using hget
        exact absurd hb hr
      | succ j2 =>
        have := ih (k + 1) l h j2 row (by simpa using hget) hr
        have harith : k + 1 + j2 = k + (j2 + 1) := by omega
        rwa [harith] at this
    · rw [studentsLoop, if_neg hb] at h
      cases hrec : studentsLoop (k + 1) rest with
      | error e =>
        rw [hrec] at h
        cases h
      | ok l2 =>
        rw [hrec] at h
        obtain rfl : Student.from_row row0 k :: l2 = l := by simpa using h
        cases j with
        | zero =>
          obtain rfl : row0 = row := by simpa using hget
          have harith : k + 0 = k := by omega
          rw [harith]
          exact List.mem_cons_self _ _
        | succ j2 =>
          have := ih (k + 1) l2 hrec j2 row (by simpa using hget) hr
          have harith : k + 1 + j2 = k + (j2 + 1) := by omega
          rw [harith] at this
          exact List.mem_cons_of_mem _ this

/-- C4: whenever the workspace opens, `get_all_students` returns a list
(never an error for a table of string cells — in particular an empty
table yields the empty list, and the `MalformedDataError` arm cannot
fire since decoding a row of strings always succeeds); rows whose first
cell is empty are skipped (every returned record decodes a data row
with a nonempty first cell); each record carries the 1-based sheet
position of its row (`j + 2` for the row at 0-based index `j + 1`,
below the header); and no non-blank data row is silently omitted. -/
theorem c4_get_all_students_spec (client : Client) (sid : String) (ss : Spreadsheet)
    (h : client sid = some ss) :
    ∃ l : List Student, get_all_students client sid = .ok l ∧
      ((ensure_worksheet_exists ss "Ученики").1.rows.drop 1 = [] → l = []) ∧
      (∀ s ∈ l, ∃ j row,
        (ensure_worksheet_exists ss "Ученики").1.rows.get? (j + 1) = some row ∧
        row.headD "" ≠ "" ∧ s = Student.from_row row (j + 2)) ∧
      (∀ (j : Nat) (row : List String),
        (ensure_worksheet_exists ss "Ученики").1.rows.get? (j + 1) = some row →
        row.headD "" ≠ "" → Student.from_row row (j + 2) ∈ l) := by
  obtain ⟨l, hl⟩ := studentsLoop_ok ((ensure_worksheet_exists ss "Ученики").1.rows.drop 1) 2
  refine ⟨l, ?_, ?_, ?_, ?_⟩
  · rw [get_all_students, open_spreadsheet, h]
    exact hl
  · intro hnil
    rw [hnil] at hl
    simpa [studentsLoop] using hl.symm
  · intro s hs
    obtain ⟨j, row, hget, hr, hs2⟩ := studentsLoop_mem _ 2 l hl s hs
    rw [get?_drop_one] at hget
    exact ⟨j, row, hget, hr, by rw [hs2]; congr 1; omega⟩
  · intro j row hget hr
    have hget2 : ((ensure_worksheet_exists ss "Ученики").1.rows.drop 1).get? j = some row := by
      rw [get?_drop_one]; exact hget
    have := studentsLoop_complete _ 2 l hl j row hget2 hr
    have harith : 2 + j = j + 2 := by omega
    rwa [harith] at this

theorem c4_get_all_students_spec_witness :
    ∃ l : List Student, get_all_students sampleClient "ws-42" = .ok l ∧
      ((ensure_worksheet_exists sampleSpreadsheet "Ученики").1.rows.drop 1 = [] → l = []) ∧
      (∀ s ∈ l, ∃ j row,
        (ensure_worksheet_exists sampleSpreadsheet "Ученики").1.rows.get? (j + 1) = some row ∧
        row.headD "" ≠ "" ∧ s = Student.from_row row (j + 2)) ∧
      (∀ (j : Nat) (row : List String),
        (ensure_worksheet_exists sampleSpreadsheet "Ученики").1.rows.get? (j + 1) = some row →
        row.headD "" ≠ "" → Student.from_row row (j + 2) ∈ l) :=
  c4_get_all_students_spec sampleClient "ws-42" sampleSpreadsheet (by decide)

/-- C10, counterexample: the delete write is not invoked only on the
explicit `/confirm` input. The input `"/confirmxyz"` is not the
`/confirm` command (so `CommandHandler("confirm")` does not match it and
`MessageHandler(filters.TEXT)` routes it to `delete_student_confirm`),
yet the handler's `startswith("/confirm")` check fires the delete
instead of re-emitting the confirmation prompt. -/
theorem c10_counterexample :
    (delete_student_confirm "/confirmxyz").deleteInvoked = true ∧
    "/confirmxyz" ≠ "/confirm" ∧
    (delete_student_confirm "/confirmxyz").next = DelState.ended := by
  refine ⟨by decide, by decide, by decide⟩

/-- C10, amended: in the confirming state the delete write is invoked
exactly on inputs whose stripped, lowercased text starts with
`"/confirm"` (the literal `/confirm`, but also e.g. `/confirmxyz`); an
input whose normal form starts with `"/cancel"` ends the flow with no
deletion; every other input re-emits the confirmation prompt and stays
in the confirming state; hence a run of the flow that never receives an
input normalizing to a `"/confirm"`-prefixed string never performs a
write. -/
theorem c10_confirm_flow_amended :
    (∀ input : String, (delete_student_confirm input).deleteInvoked = true →
      pyStartsWith (normalizeInput input) "/confirm" = true) ∧
    (∀ input : String, pyStartsWith (normalizeInput input) "/confirm" = false →
      pyStartsWith (normalizeInput input) "/cancel" = true →
      delete_student_confirm input =
        { next := .ended, deleteInvoked := false, reprompted := false }) ∧
    (∀ input : String, pyStartsWith (normalizeInput input) "/confirm" = false →
      pyStartsWith (normalizeInput input) "/cancel" = false →
      delete_student_confirm input =
        { next := .awaitingConfirm, deleteInvoked := false, reprompted := true }) ∧
    (∀ inputs : List String,
      (∀ i ∈ inputs, pyStartsWith (normalizeInput i) "/confirm" = false) →
      confirmRunInvokes inputs = false) := by
  have hstep : ∀ input : String,
      pyStartsWith (normalizeInput input) "/confirm" = false →
      (delete_student_confirm input).deleteInvoked = false := by
    intro input hc
    rw [delete_student_confirm]
    simp only [hc, if_false, Bool.false_eq_true]
    split <;> rfl
  refine ⟨?_, ?_, ?_, ?_⟩
  · intro input h
    by_contra hc
    rw [Bool.not_eq_true] at hc
    rw [hstep input hc] at h
    cases h
  · intro input hc hk
    rw [delete_student_confirm]
    simp only [hc, if_false, Bool.false_eq_true, hk, if_true]
  · intro input hc hk
    rw [delete_student_confirm]
    simp only [hc, if_false, Bool.false_eq_true, hk]
  · intro inputs h
    induction inputs with
    | nil => rfl
    | cons i rest ih =>
      have hc := h i (List.mem_cons_self i rest)
      rw [confirmRunInvokes]
      rw [hstep i hc, Bool.false_or]
      split
      · exact ih (fun x hx => h x (List.mem_cons_of_mem _ hx))
      · rfl

theorem c10_confirm_flow_amended_witness :
    pyStartsWith (normalizeInput "/confirm") "/confirm" = true ∧
    delete_student_confirm "/cancel" =
      { next := .ended, deleteInvoked := false, reprompted := false } ∧
    delete_student_confirm "yes" =
      { next := .awaitingConfirm, deleteInvoked := false, reprompted := true } ∧
    confirmRunInvokes ["yes", "definitely", "/cancel"] = false :=
  ⟨c10_confirm_flow_amended.1 "/confirm" (by decide),
   c10_confirm_flow_amended.2.1 "/cancel" (by decide) (by decide),
   c10_confirm_flow_amended.2.2.1 "yes" (by decide) (by decide),
   c10_confirm_flow_amended.2.2.2 ["yes", "definitely", "/cancel"] (by decide)⟩

end Impathy
